import Mathlib

/-!
Verification of `examples/depth.rs` (wgpu_glyph depth-buffer demo).

The program is shallowly embedded as a state machine: the mutable state of the
event-loop closure (`size`, `swap_chain`, `depth_view`, the glyph brush's
pending queue and configuration, `control_flow`) is an explicit structure, and
each `winit` event is one step of a step function. GPU objects are represented
by their creation descriptors; `f64` values are modelled as exact rationals
with the Rust cast and rounding semantics made explicit.
-/

/-- Floor of a rational as an integer (the denominator is positive, so
integer floor-division of numerator by denominator is the floor). -/
def ratFloorZ (x : ℚ) : ℤ := x.num.fdiv (x.den : ℤ)

/-- Rust `as u32` on an `f64`: truncate toward zero, saturating at
`u32::MAX` above and at `0` below. Floats are modelled as exact rationals,
so there is no NaN case, and truncation toward zero of a value clamped
below at `0` is the floor. -/
def u32_max : ℕ := 4294967295

def f64_as_u32 (x : ℚ) : ℕ := min (ratFloorZ x).toNat u32_max

/-- Rust `f64::round`: round half away from zero. -/
def f64_round (x : ℚ) : ℚ :=
  if 0 ≤ x then (ratFloorZ (x + 1/2) : ℚ) else -(ratFloorZ (-x + 1/2) : ℚ)

/-- The combination `x.round() as u32` used for the swap-chain dimensions. -/
def u32_round (x : ℚ) : ℕ := f64_as_u32 (f64_round x)

/-! ## winit sizes -/

structure LogicalSize where
  width : ℚ
  height : ℚ
deriving DecidableEq

structure PhysicalSize where
  width : ℚ
  height : ℚ
deriving DecidableEq

/-- `LogicalSize::to_physical`: multiply by the HiDPI factor. -/
def LogicalSize.to_physical (l : LogicalSize) (hidpi_factor : ℚ) : PhysicalSize :=
  ⟨l.width * hidpi_factor, l.height * hidpi_factor⟩

/-! ## wgpu descriptor types (as used by the example) -/

inductive TextureFormat
  | Bgra8UnormSrgb
  | Depth32Float
deriving DecidableEq

inductive TextureUsage
  | OUTPUT_ATTACHMENT
deriving DecidableEq

inductive PresentMode
  | Vsync
deriving DecidableEq

inductive CompareFunction
  | Never
  | Less
  | Equal
  | LessEqual
  | Greater
  | NotEqual
  | GreaterEqual
  | Always
deriving DecidableEq

inductive StencilOp
  | Keep
  | Zero
  | Replace
deriving DecidableEq

structure StencilStateFaceDescriptor where
  compare : CompareFunction
  fail_op : StencilOp
  depth_fail_op : StencilOp
  pass_op : StencilOp
deriving DecidableEq

/-- `wgpu::StencilStateFaceDescriptor::IGNORE`: compare `Always`, all
operations `Keep` (the wgpu constant the example refers to). -/
def StencilStateFaceDescriptor.IGNORE : StencilStateFaceDescriptor :=
  { compare := .Always, fail_op := .Keep, depth_fail_op := .Keep, pass_op := .Keep }

structure DepthStencilStateDescriptor where
  format : TextureFormat
  depth_write_enabled : Bool
  depth_compare : CompareFunction
  stencil_front : StencilStateFaceDescriptor
  stencil_back : StencilStateFaceDescriptor
  stencil_read_mask : ℕ
  stencil_write_mask : ℕ
deriving DecidableEq

/-- The depth-stencil state the example passes to `GlyphBrushBuilder`
(lines 51-59 of `examples/depth.rs`). -/
def glyphDepthStencilState : DepthStencilStateDescriptor :=
  { format := .Depth32Float,
    depth_write_enabled := true,
    depth_compare := .Greater,
    stencil_front := StencilStateFaceDescriptor.IGNORE,
    stencil_back := StencilStateFaceDescriptor.IGNORE,
    stencil_read_mask := 0,
    stencil_write_mask := 0 }

structure SwapChainDescriptor where
  usage : TextureUsage
  format : TextureFormat
  width : ℕ
  height : ℕ
  present_mode : PresentMode
deriving DecidableEq

/-- The swap-chain descriptor the example builds from the current physical
size: both dimensions go through `.round() as u32`. -/
def makeSwapChainDesc (size : PhysicalSize) : SwapChainDescriptor :=
  { usage := .OUTPUT_ATTACHMENT,
    format := .Bgra8UnormSrgb,
    width := u32_round size.width,
    height := u32_round size.height,
    present_mode := .Vsync }

structure Extent3d where
  width : ℕ
  height : ℕ
  depth : ℕ
deriving DecidableEq

inductive TextureDimension
  | D1
  | D2
  | D3
deriving DecidableEq

structure TextureDescriptor where
  size : Extent3d
  array_layer_count : ℕ
  mip_level_count : ℕ
  sample_count : ℕ
  dimension : TextureDimension
  format : TextureFormat
  usage : TextureUsage
deriving DecidableEq

/-- `create_depth_view` (lines 172-191): the depth texture descriptor. Note
the dimensions use the bare `as u32` cast, with no `.round()`. The returned
default view is identified with the texture's descriptor. -/
def create_depth_view (size : PhysicalSize) : TextureDescriptor :=
  { size := { width := f64_as_u32 size.width, height := f64_as_u32 size.height, depth := 1 },
    array_layer_count := 1,
    mip_level_count := 1,
    sample_count := 1,
    dimension := .D2,
    format := .Depth32Float,
    usage := .OUTPUT_ATTACHMENT }

/-! ## Glyph sections -/

/-- `rusttype::Scale` as re-exported by wgpu_glyph. -/
structure Scale where
  x : ℚ
  y : ℚ
deriving DecidableEq

def Scale.uniform (s : ℚ) : Scale := ⟨s, s⟩

def emptyString : String := ""

def doubleNewline : String := "\n\n"

/-- A queued text section. Modelled from the spec: the `Section` type lives in
the external glyph library; the spec's data model gives a unit of queued text
with screen position, an optional bounding box, UTF-8 text, uniform scale,
RGBA color and a depth key `z`. -/
structure Section where
  screen_position : ℚ × ℚ
  bounds : Option (ℚ × ℚ)
  text : String
  scale : Scale
  color : ℚ × ℚ × ℚ × ℚ
  z : ℚ
deriving DecidableEq

/-- Modelled from the spec: the external library's `Section::default()` —
origin position, no bounding box, empty text, black color, depth key `0`. -/
def Section.default : Section :=
  { screen_position := (0, 0),
    bounds := none,
    text := emptyString,
    scale := Scale.uniform 16,
    color := (0, 0, 0, 1),
    z := 0 }

def onTopText : String := "On top"

/-- The first section queued each frame (lines 122-129). -/
def onTopSection : Section :=
  { Section.default with
      screen_position := (30, 30),
      text := onTopText,
      scale := Scale.uniform 95,
      color := (0.8, 0.8, 0.8, 1),
      z := 0.9 }

/-- The body text: `lipsum.txt` with `"\n\n"` occurrences replaced by the
empty string, the result concatenated 10 times (lines 136-138). The file
contents are a parameter of the model. -/
def bodyText (lipsum : String) : String :=
  String.join (List.replicate 10 (lipsum.replace doubleNewline emptyString))

/-- The second section queued each frame (lines 134-143). The bounds are the
current physical size (the `f64` → `f32` cast is modelled as exact). -/
def bodySection (lipsum : String) (size : PhysicalSize) : Section :=
  { Section.default with
      bounds := some (size.width, size.height),
      text := bodyText lipsum,
      scale := Scale.uniform 30,
      color := (0.05, 0.05, 0.1, 1),
      z := 0.2 }

/-- The two sections queued by one frame, in program order. -/
def frameSections (lipsum : String) (size : PhysicalSize) : List Section :=
  [onTopSection, bodySection lipsum size]

/-! ## Render pass descriptors and encoder commands -/

structure GpuColor where
  r : ℚ
  g : ℚ
  b : ℚ
  a : ℚ
deriving DecidableEq

inductive LoadOp
  | Clear
  | Load
deriving DecidableEq

inductive StoreOp
  | Clear
  | Store
deriving DecidableEq

structure RenderPassColorAttachmentDescriptor where
  attachment : ℕ
  resolve_target : Option ℕ
  load_op : LoadOp
  store_op : StoreOp
  clear_color : GpuColor
deriving DecidableEq

structure RenderPassDepthStencilAttachmentDescriptor where
  attachment : TextureDescriptor
  depth_load_op : LoadOp
  depth_store_op : StoreOp
  stencil_load_op : LoadOp
  stencil_store_op : StoreOp
  clear_depth : ℚ
  clear_stencil : ℕ
deriving DecidableEq

structure RenderPassDescriptor where
  color_attachments : List RenderPassColorAttachmentDescriptor
  depth_stencil_attachment : Option RenderPassDepthStencilAttachmentDescriptor
deriving DecidableEq

/-- The view of the swap-chain image acquired for the current frame, as an
opaque identifier. -/
def frameViewId : ℕ := 0

/-- The clear render pass opened and immediately closed at the start of each
frame (lines 99-117). -/
def clearPassDesc (view : ℕ) : RenderPassDescriptor :=
  { color_attachments :=
      [{ attachment := view,
         resolve_target := none,
         load_op := .Clear,
         store_op := .Store,
         clear_color := { r := 0.4, g := 0.4, b := 0.4, a := 1 } }],
    depth_stencil_attachment := none }

/-- The depth-stencil attachment descriptor passed to `draw_queued`
(lines 151-159). -/
def depthAttachmentDesc (dv : TextureDescriptor) : RenderPassDepthStencilAttachmentDescriptor :=
  { attachment := dv,
    depth_load_op := .Clear,
    depth_store_op := .Store,
    stencil_load_op := .Clear,
    stencil_store_op := .Store,
    clear_depth := -1,
    clear_stencil := 0 }

structure DrawCall where
  sections : List Section
  target : ℕ
  depth : RenderPassDepthStencilAttachmentDescriptor
  width : ℕ
  height : ℕ
deriving DecidableEq

inductive GpuCommand
  | beginRenderPass (desc : RenderPassDescriptor)
  | drawQueued (call : DrawCall)
deriving DecidableEq

/-- One recorded command buffer, as produced by `encoder.finish()`. -/
def CommandBuffer : Type := List GpuCommand

inductive Creation
  | swapchain (d : SwapChainDescriptor)
  | texture (d : TextureDescriptor)
deriving DecidableEq

def Creation.createdWidth : Creation → ℕ
  | .swapchain d => d.width
  | .texture d => d.size.width

def Creation.createdHeight : Creation → ℕ
  | .swapchain d => d.height
  | .texture d => d.size.height

/-! ## The event-loop state machine -/

inductive ControlFlow
  | Poll
  | Exit
deriving DecidableEq

/-- The mutable state owned by the event-loop closure, together with the
glyph brush's internal state (pending queue plus depth-stencil
configuration) and opaque handles. -/
structure AppState where
  size : PhysicalSize
  swap_chain : SwapChainDescriptor
  depth_view : TextureDescriptor
  queued : List Section
  depth_stencil : DepthStencilStateDescriptor
  device : ℕ
  surface : ℕ
  control_flow : ControlFlow
deriving DecidableEq

/-- Environment of a run: the window's HiDPI factor and the bundled
`lipsum.txt` contents. -/
structure Config where
  hidpi : ℚ
  lipsum : String
deriving DecidableEq

inductive Event
  | CloseRequested
  | Resized (new_size : LogicalSize)
  | EventsCleared
  | Other
deriving DecidableEq

inductive Outcome
  | Continue
  | Panicked (msg : String)
deriving DecidableEq

/-- Observable result of handling one event: the successor state, whether the
process panicked, the GPU objects created, the `draw_queued` calls made, the
`queue.submit` calls made (each one a list of command buffers), and how many
frames were rendered. -/
structure StepOut where
  state : AppState
  outcome : Outcome
  created : List Creation
  draws : List DrawCall
  submitted : List (List CommandBuffer)
  frames : ℕ

def drawQueuedMsg : String := "Draw queued"

def expectSep : String := ": "

/-- The `draw_queued` call of one frame (lines 146-163): all pending sections,
the frame's color view, the depth attachment descriptor over the current
`depth_view`, and `size.{width,height}.round() as u32`. -/
def frameDrawCall (cfg : Config) (s : AppState) : DrawCall :=
  { sections := s.queued ++ frameSections cfg.lipsum s.size,
    target := frameViewId,
    depth := depthAttachmentDesc s.depth_view,
    width := u32_round s.size.width,
    height := u32_round s.size.height }

/-- The `EventsCleared` arm (lines 88-166): clear pass, queue two sections,
`draw_queued` (flushing the queue), submit one command buffer. `draw` is the
oracle for the external `draw_queued` result; on an error the `.expect`
panics before anything is submitted. -/
def renderFrame (cfg : Config) (draw : Except String Unit) (s : AppState) : StepOut :=
  let dc := frameDrawCall cfg s
  let cmds : List GpuCommand := [.beginRenderPass (clearPassDesc frameViewId), .drawQueued dc]
  match draw with
  | .error e =>
      { state := { s with queued := dc.sections },
        outcome := .Panicked (drawQueuedMsg ++ expectSep ++ e),
        created := [],
        draws := [dc],
        submitted := [],
        frames := 0 }
  | .ok _ =>
      { state := { s with queued := [] },
        outcome := .Continue,
        created := [],
        draws := [dc],
        submitted := [[cmds]],
        frames := 1 }

/-- The event dispatch (lines 63-168): one step of the `event_loop.run`
closure. -/
def step (cfg : Config) (draw : Except String Unit) (s : AppState) : Event → StepOut
  | .CloseRequested =>
      { state := { s with control_flow := .Exit },
        outcome := .Continue, created := [], draws := [], submitted := [], frames := 0 }
  | .Resized new_size =>
      let sz := new_size.to_physical cfg.hidpi
      let sc := makeSwapChainDesc sz
      let dv := create_depth_view sz
      { state := { s with size := sz, swap_chain := sc, depth_view := dv },
        outcome := .Continue,
        created := [.swapchain sc, .texture dv],
        draws := [], submitted := [], frames := 0 }
  | .EventsCleared => renderFrame cfg draw s
  | .Other =>
      { state := s, outcome := .Continue, created := [], draws := [], submitted := [], frames := 0 }

/-- The state after startup (lines 31-60): `size` is the window's inner size
converted to physical pixels, the swap chain and depth view are created from
it, the glyph brush is configured and its queue is empty. -/
def initState (cfg : Config) (window_inner : LogicalSize) : AppState :=
  let sz := window_inner.to_physical cfg.hidpi
  { size := sz,
    swap_chain := makeSwapChainDesc sz,
    depth_view := create_depth_view sz,
    queued := [],
    depth_stencil := glyphDepthStencilState,
    device := 0,
    surface := 0,
    control_flow := .Poll }

/-- States reachable by the event loop. A step is taken only while the
process is alive: a panicked step terminates the program, so its successor
state is not reachable. -/
inductive Reachable (cfg : Config) : AppState → Prop
  | init (window_inner : LogicalSize) : Reachable cfg (initState cfg window_inner)
  | next (s : AppState) (e : Event) (draw : Except String Unit) :
      Reachable cfg s → (step cfg draw s e).outcome = .Continue →
      Reachable cfg ((step cfg draw s e).state)

/-! ## Pixel-level depth test model -/

/-- Modelled from the spec: evaluation of a wgpu `CompareFunction` on a new
fragment depth against the stored depth (the GPU's depth test is external to
the example). -/
def compareFunctionEval : CompareFunction → ℚ → ℚ → Bool
  | .Never, _, _ => false
  | .Less, f, s => decide (f < s)
  | .Equal, f, s => decide (f = s)
  | .LessEqual, f, s => decide (f ≤ s)
  | .Greater, f, s => decide (s < f)
  | .NotEqual, f, s => decide (f ≠ s)
  | .GreaterEqual, f, s => decide (s ≤ f)
  | .Always, _, _ => true

/-- A rasterized glyph fragment at a fixed pixel: its color and its section's
depth key. -/
structure Fragment where
  color : ℚ × ℚ × ℚ × ℚ
  z : ℚ
deriving DecidableEq

/-- A pixel of the framebuffer: current color and current depth value. -/
structure PixelState where
  color : ℚ × ℚ × ℚ × ℚ
  depth : ℚ
deriving DecidableEq

/-- Modelled from the spec: applying one fragment to a pixel under a
depth-stencil state — the fragment's color is written iff the compare
function passes, and the depth is written iff additionally depth writes are
enabled (the spec states the final color at an overlap pixel equals the
winning section's rasterized color). -/
def applyFragment (dss : DepthStencilStateDescriptor) (p : PixelState) (f : Fragment) : PixelState :=
  if compareFunctionEval dss.depth_compare f.z p.depth then
    { color := f.color, depth := if dss.depth_write_enabled then f.z else p.depth }
  else p

/-- Applying a sequence of fragments (in queue order) to a pixel. -/
def applyFragments (dss : DepthStencilStateDescriptor) (p : PixelState) (fs : List Fragment) : PixelState :=
  fs.foldl (applyFragment dss) p

/-! ## Evaluation lemmas for the cast and rounding helpers -/

theorem ratFloorZ_eq_floor (x : ℚ) : ratFloorZ x = ⌊x⌋ := by
  rw [ratFloorZ, Int.fdiv_eq_ediv _ (by positivity), Rat.floor_def]

theorem f64_as_u32_eq (x : ℚ) : f64_as_u32 x = min ⌊x⌋.toNat u32_max := by
  rw [f64_as_u32, ratFloorZ_eq_floor]

theorem u32_round_eq (x : ℚ) (h : 0 ≤ x) :
    u32_round x = min ⌊x + 1/2⌋.toNat u32_max := by
  rw [u32_round, f64_round, if_pos h, ratFloorZ_eq_floor, f64_as_u32_eq, Int.floor_intCast]

/-! ## Reachable-state invariants -/

/-- In every state the event loop can reach while the process is alive, the
glyph queue is empty at event boundaries, and the swap chain and depth view
are exactly the ones built from the current `size`. -/
theorem reachable_invariants (cfg : Config) (s : AppState) (h : Reachable cfg s) :
    s.queued = [] ∧ s.swap_chain = makeSwapChainDesc s.size ∧
    s.depth_view = create_depth_view s.size ∧ s.depth_stencil = glyphDepthStencilState := by
  induction h with
  | init w => exact ⟨rfl, rfl, rfl, rfl⟩
  | next s e draw hr hc ih =>
    cases e with
    | CloseRequested => exact ⟨ih.1, ih.2.1, ih.2.2.1, ih.2.2.2⟩
    | Resized l => exact ⟨ih.1, rfl, rfl, ih.2.2.2⟩
    | EventsCleared =>
      cases draw with
      | error m => simp [step, renderFrame] at hc
      | ok u => exact ⟨rfl, ih.2.1, ih.2.2.1, ih.2.2.2⟩
    | Other => exact ih

/-! ## Claim theorems -/

/-- Claim C3: the glyph pipeline is configured once at startup with a
depth-stencil state whose depth format is `Depth32Float`, depth writes
enabled, depth compare `Greater`, stencil ignored front and back, and both
stencil masks zero; no event-loop step ever changes the configuration. -/
theorem pipeline_depth_stencil_config :
    glyphDepthStencilState.format = TextureFormat.Depth32Float ∧
    glyphDepthStencilState.depth_write_enabled = true ∧
    glyphDepthStencilState.depth_compare = CompareFunction.Greater ∧
    glyphDepthStencilState.stencil_front = StencilStateFaceDescriptor.IGNORE ∧
    glyphDepthStencilState.stencil_back = StencilStateFaceDescriptor.IGNORE ∧
    glyphDepthStencilState.stencil_read_mask = 0 ∧
    glyphDepthStencilState.stencil_write_mask = 0 ∧
    (∀ (cfg : Config) (w : LogicalSize),
      (initState cfg w).depth_stencil = glyphDepthStencilState) ∧
    (∀ (cfg : Config) (draw : Except String Unit) (s : AppState) (e : Event),
      (step cfg draw s e).state.depth_stencil = s.depth_stencil) := by
  refine ⟨rfl, rfl, rfl, rfl, rfl, rfl, rfl, fun _ _ => rfl, fun cfg draw s e => ?_⟩
  cases e <;> cases draw <;> rfl

/-- Claim C6: event dispatch maps a close request to the `Exit` control flow,
a resize to rebuilding the swap chain and then the depth view from the new
physical size within a single step (so no frame is rendered in between), an
idle tick (`EventsCleared`) to exactly one rendered frame, and any other
event to no change at all. -/
theorem event_dispatch_transitions (cfg : Config) (draw : Except String Unit)
    (s : AppState) (l : LogicalSize) :
    (step cfg draw s .CloseRequested).state = { s with control_flow := ControlFlow.Exit } ∧
    (step cfg draw s .CloseRequested).frames = 0 ∧
    (step cfg draw s .CloseRequested).submitted = [] ∧
    (step cfg draw s (.Resized l)).state =
      { s with size := l.to_physical cfg.hidpi,
               swap_chain := makeSwapChainDesc (l.to_physical cfg.hidpi),
               depth_view := create_depth_view (l.to_physical cfg.hidpi) } ∧
    (step cfg draw s (.Resized l)).created =
      [Creation.swapchain (makeSwapChainDesc (l.to_physical cfg.hidpi)),
       Creation.texture (create_depth_view (l.to_physical cfg.hidpi))] ∧
    (step cfg draw s (.Resized l)).frames = 0 ∧
    (step cfg (.ok ()) s .EventsCleared).frames = 1 ∧
    (step cfg draw s .Other).state = s ∧
    (step cfg draw s .Other).frames = 0 ∧
    (step cfg draw s .Other).submitted = [] ∧
    (step cfg draw s .Other).created = [] :=
  ⟨rfl, rfl, rfl, rfl, rfl, rfl, rfl, rfl, rfl, rfl, rfl⟩

/-- Claim C7: one frame encodes the color-clear render pass (clear to RGBA
`(0.4, 0.4, 0.4, 1.0)`, store `Store`, no depth attachment) and the glyph
flush into a single command buffer submitted by a single `submit` call, with
the clear pass strictly preceding the flush in the buffer. -/
theorem frame_single_buffer_clear_then_flush (cfg : Config) (s : AppState) :
    (step cfg (.ok ()) s .EventsCleared).submitted =
      [[[GpuCommand.beginRenderPass (clearPassDesc frameViewId),
         GpuCommand.drawQueued (frameDrawCall cfg s)]]] ∧
    (clearPassDesc frameViewId).color_attachments =
      [{ attachment := frameViewId, resolve_target := none, load_op := LoadOp.Clear,
         store_op := StoreOp.Store,
         clear_color := { r := 0.4, g := 0.4, b := 0.4, a := 1 } }] ∧
    (clearPassDesc frameViewId).depth_stencil_attachment = none :=
  ⟨rfl, rfl, rfl⟩

/-- Claim C8: if `draw_queued` fails during a frame, the `.expect` panics:
the step's outcome is a fatal panic, nothing is submitted, no frame
completes, and the single draw call is never retried. -/
theorem draw_error_is_fatal (cfg : Config) (s : AppState) (msg : String) :
    (step cfg (.error msg) s .EventsCleared).outcome =
      Outcome.Panicked (drawQueuedMsg ++ expectSep ++ msg) ∧
    (step cfg (.error msg) s .EventsCleared).submitted = [] ∧
    (step cfg (.error msg) s .EventsCleared).frames = 0 ∧
    (step cfg (.error msg) s .EventsCleared).draws = [frameDrawCall cfg s] :=
  ⟨rfl, rfl, rfl, rfl⟩

/-- Claim C10: the resize handler mutates only `size`, `swap_chain` and
`depth_view`: the device and surface handles, the glyph pipeline's pending
queue and depth-stencil configuration, and the control flow are unchanged,
and the step performs no draw, no submission and renders no frame. -/
theorem resize_mutates_only_swap_state (cfg : Config) (draw : Except String Unit)
    (s : AppState) (l : LogicalSize) :
    (step cfg draw s (.Resized l)).state.device = s.device ∧
    (step cfg draw s (.Resized l)).state.surface = s.surface ∧
    (step cfg draw s (.Resized l)).state.queued = s.queued ∧
    (step cfg draw s (.Resized l)).state.depth_stencil = s.depth_stencil ∧
    (step cfg draw s (.Resized l)).state.control_flow = s.control_flow ∧
    (step cfg draw s (.Resized l)).draws = [] ∧
    (step cfg draw s (.Resized l)).submitted = [] ∧
    (step cfg draw s (.Resized l)).frames = 0 ∧
    (step cfg draw s (.Resized l)).outcome = Outcome.Continue :=
  ⟨rfl, rfl, rfl, rfl, rfl, rfl, rfl, rfl, rfl⟩

/-- Claim C4: on every flush from a reachable state, the depth attachment
descriptor has depth load `Clear` with clear value `-1.0`, depth store
`Store`, stencil load `Clear` with clear value `0`, stencil store `Store`,
its attachment is the current depth view, and the width and height passed
are exactly the current swap chain's width and height. -/
theorem flush_depth_attachment_descriptor (cfg : Config) (draw : Except String Unit)
    (s : AppState) (h : Reachable cfg s) :
    (step cfg draw s .EventsCleared).draws =
      [{ sections := frameSections cfg.lipsum s.size,
         target := frameViewId,
         depth :=
           { attachment := s.depth_view,
             depth_load_op := LoadOp.Clear,
             depth_store_op := StoreOp.Store,
             stencil_load_op := LoadOp.Clear,
             stencil_store_op := StoreOp.Store,
             clear_depth := -1,
             clear_stencil := 0 },
         width := s.swap_chain.width,
         height := s.swap_chain.height }] := by
  obtain ⟨hq, hsc, -, -⟩ := reachable_invariants cfg s h
  cases draw <;>
    simp [step, renderFrame, frameDrawCall, depthAttachmentDesc, hq, hsc, makeSwapChainDesc]

/-- Witness for C4 at the startup state of a 800 × 600 window with HiDPI
factor 1. -/
theorem flush_depth_attachment_descriptor_witness :
    (step ⟨1, emptyString⟩ (.ok ()) (initState ⟨1, emptyString⟩ ⟨800, 600⟩) .EventsCleared).draws =
      [{ sections := frameSections emptyString (initState ⟨1, emptyString⟩ ⟨800, 600⟩).size,
         target := frameViewId,
         depth :=
           { attachment := (initState ⟨1, emptyString⟩ ⟨800, 600⟩).depth_view,
             depth_load_op := LoadOp.Clear,
             depth_store_op := StoreOp.Store,
             stencil_load_op := LoadOp.Clear,
             stencil_store_op := StoreOp.Store,
             clear_depth := -1,
             clear_stencil := 0 },
         width := (initState ⟨1, emptyString⟩ ⟨800, 600⟩).swap_chain.width,
         height := (initState ⟨1, emptyString⟩ ⟨800, 600⟩).swap_chain.height }] :=
  flush_depth_attachment_descriptor ⟨1, emptyString⟩ (.ok ()) _ (Reachable.init ⟨800, 600⟩)

/-- Claim C5: every frame from a reachable state draws exactly two sections,
in order: first the near-white "On top" section at `(30, 30)`, uniform
scale 95, color `(0.8, 0.8, 0.8, 1.0)`, `z = 0.9`; second the body section —
the bundled lorem-ipsum with double newlines removed and repeated 10 times —
bounded to the current window size, uniform scale 30, color
`(0.05, 0.05, 0.1, 1.0)`, `z = 0.2`. -/
theorem frame_queues_two_sections (cfg : Config) (draw : Except String Unit)
    (s : AppState) (h : Reachable cfg s) :
    ((step cfg draw s .EventsCleared).draws.map DrawCall.sections) =
      [[onTopSection, bodySection cfg.lipsum s.size]] ∧
    onTopSection.screen_position = (30, 30) ∧
    onTopSection.text = onTopText ∧
    onTopSection.scale = Scale.uniform 95 ∧
    onTopSection.color = (0.8, 0.8, 0.8, 1) ∧
    onTopSection.z = 0.9 ∧
    (bodySection cfg.lipsum s.size).bounds = some (s.size.width, s.size.height) ∧
    (bodySection cfg.lipsum s.size).text =
      String.join (List.replicate 10 (cfg.lipsum.replace doubleNewline emptyString)) ∧
    (bodySection cfg.lipsum s.size).scale = Scale.uniform 30 ∧
    (bodySection cfg.lipsum s.size).color = (0.05, 0.05, 0.1, 1) ∧
    (bodySection cfg.lipsum s.size).z = 0.2 := by
  obtain ⟨hq, -, -, -⟩ := reachable_invariants cfg s h
  refine ⟨?_, rfl, rfl, rfl, rfl, rfl, rfl, rfl, rfl, rfl, rfl⟩
  cases draw <;> simp [step, renderFrame, frameDrawCall, frameSections, hq]

/-- Witness for C5 at the startup state of a 800 × 600 window with HiDPI
factor 1 and a two-paragraph lipsum. -/
theorem frame_queues_two_sections_witness :
    ((step ⟨1, emptyString⟩ (.ok ()) (initState ⟨1, emptyString⟩ ⟨800, 600⟩)
        .EventsCleared).draws.map DrawCall.sections) =
      [[onTopSection, bodySection emptyString (initState ⟨1, emptyString⟩ ⟨800, 600⟩).size]] ∧
    onTopSection.screen_position = (30, 30) ∧
    onTopSection.text = onTopText ∧
    onTopSection.scale = Scale.uniform 95 ∧
    onTopSection.color = (0.8, 0.8, 0.8, 1) ∧
    onTopSection.z = 0.9 ∧
    (bodySection emptyString (initState ⟨1, emptyString⟩ ⟨800, 600⟩).size).bounds =
      some ((initState ⟨1, emptyString⟩ ⟨800, 600⟩).size.width,
            (initState ⟨1, emptyString⟩ ⟨800, 600⟩).size.height) ∧
    (bodySection emptyString (initState ⟨1, emptyString⟩ ⟨800, 600⟩).size).text =
      String.join (List.replicate 10 (emptyString.replace doubleNewline emptyString)) ∧
    (bodySection emptyString (initState ⟨1, emptyString⟩ ⟨800, 600⟩).size).scale =
      Scale.uniform 30 ∧
    (bodySection emptyString (initState ⟨1, emptyString⟩ ⟨800, 600⟩).size).color =
      (0.05, 0.05, 0.1, 1) ∧
    (bodySection emptyString (initState ⟨1, emptyString⟩ ⟨800, 600⟩).size).z = 0.2 :=
  frame_queues_two_sections ⟨1, emptyString⟩ (.ok ()) _ (Reachable.init ⟨800, 600⟩)

/-- Claim C1: under the code's depth-stencil state (compare `Greater`, depth
writes enabled) and a depth buffer cleared to the flush descriptor's clear
value, two overlapping fragments with distinct depth keys yield the same
pixel in either queue order, and the final color is the higher-`z`
fragment's color. -/
theorem depth_order_commutes (bg chi clo : ℚ × ℚ × ℚ × ℚ) (zhi zlo : ℚ)
    (dv : TextureDescriptor) (hz : zlo < zhi)
    (hclear : (depthAttachmentDesc dv).clear_depth < zlo) :
    applyFragments glyphDepthStencilState
        ⟨bg, (depthAttachmentDesc dv).clear_depth⟩ [⟨chi, zhi⟩, ⟨clo, zlo⟩] =
      applyFragments glyphDepthStencilState
        ⟨bg, (depthAttachmentDesc dv).clear_depth⟩ [⟨clo, zlo⟩, ⟨chi, zhi⟩] ∧
    (applyFragments glyphDepthStencilState
        ⟨bg, (depthAttachmentDesc dv).clear_depth⟩ [⟨chi, zhi⟩, ⟨clo, zlo⟩]).color = chi := by
  have hc1 : (depthAttachmentDesc dv).clear_depth = -1 := rfl
  rw [hc1] at hclear
  have h1 : (-1 : ℚ) < zhi := lt_trans hclear hz
  have h2 : ¬ zhi < zlo := lt_asymm hz
  constructor <;>
    simp [applyFragments, applyFragment, glyphDepthStencilState, compareFunctionEval,
      hc1, hclear, h1, hz, h2]

/-- Witness for C1 at the demo's two sections: "On top" (`z = 0.9`) wins
over the body (`z = 0.2`) in both queue orders over the `-1`-cleared depth
buffer. -/
theorem depth_order_commutes_witness :
    (bodySection emptyString ⟨800, 600⟩).z < onTopSection.z ∧
    (depthAttachmentDesc (create_depth_view ⟨800, 600⟩)).clear_depth <
      (bodySection emptyString ⟨800, 600⟩).z ∧
    (applyFragments glyphDepthStencilState
        ⟨(0.4, 0.4, 0.4, 1), (depthAttachmentDesc (create_depth_view ⟨800, 600⟩)).clear_depth⟩
        [⟨onTopSection.color, onTopSection.z⟩,
         ⟨(bodySection emptyString ⟨800, 600⟩).color, (bodySection emptyString ⟨800, 600⟩).z⟩] =
      applyFragments glyphDepthStencilState
        ⟨(0.4, 0.4, 0.4, 1), (depthAttachmentDesc (create_depth_view ⟨800, 600⟩)).clear_depth⟩
        [⟨(bodySection emptyString ⟨800, 600⟩).color, (bodySection emptyString ⟨800, 600⟩).z⟩,
         ⟨onTopSection.color, onTopSection.z⟩] ∧
     (applyFragments glyphDepthStencilState
        ⟨(0.4, 0.4, 0.4, 1), (depthAttachmentDesc (create_depth_view ⟨800, 600⟩)).clear_depth⟩
        [⟨onTopSection.color, onTopSection.z⟩,
         ⟨(bodySection emptyString ⟨800, 600⟩).color,
          (bodySection emptyString ⟨800, 600⟩).z⟩]).color = onTopSection.color) := by
  have h1 : (bodySection emptyString ⟨800, 600⟩).z < onTopSection.z := by
    norm_num [bodySection, onTopSection]
  have h2 : (depthAttachmentDesc (create_depth_view ⟨800, 600⟩)).clear_depth <
      (bodySection emptyString ⟨800, 600⟩).z := by
    norm_num [bodySection, depthAttachmentDesc]
  exact ⟨h1, h2, depth_order_commutes (0.4, 0.4, 0.4, 1) onTopSection.color
    (bodySection emptyString ⟨800, 600⟩).color onTopSection.z
    (bodySection emptyString ⟨800, 600⟩).z (create_depth_view ⟨800, 600⟩) h1 h2⟩

/-- Claim C2 fails on the code: after a resize to logical `267 × 600` at
HiDPI factor `3/2` — physical size `400.5 × 900` — the swap chain is built
with rounded width `401` while the depth texture is built with truncated
width `400`, so the two attachment sizes differ for the following frames.
The state is reachable by the event loop. -/
theorem depth_swapchain_size_mismatch :
    Reachable ⟨3/2, emptyString⟩
      ((step ⟨3/2, emptyString⟩ (.ok ()) (initState ⟨3/2, emptyString⟩ ⟨800, 600⟩)
          (.Resized ⟨267, 600⟩)).state) ∧
    (step ⟨3/2, emptyString⟩ (.ok ()) (initState ⟨3/2, emptyString⟩ ⟨800, 600⟩)
        (.Resized ⟨267, 600⟩)).state.swap_chain.width = 401 ∧
    (step ⟨3/2, emptyString⟩ (.ok ()) (initState ⟨3/2, emptyString⟩ ⟨800, 600⟩)
        (.Resized ⟨267, 600⟩)).state.depth_view.size.width = 400 := by
  refine ⟨Reachable.next _ _ _ (Reachable.init ⟨800, 600⟩) rfl, ?_, ?_⟩
  · have e1 : (step ⟨3/2, emptyString⟩ (.ok ()) (initState ⟨3/2, emptyString⟩ ⟨800, 600⟩)
        (.Resized ⟨267, 600⟩)).state.swap_chain.width = u32_round ((267 : ℚ) * (3/2)) := rfl
    rw [e1, show ((267 : ℚ) * (3/2)) = 801/2 by norm_num,
      u32_round_eq _ (by norm_num),
      show ⌊(801/2 : ℚ) + 1/2⌋ = 401 by rw [Int.floor_eq_iff]; norm_num]
    decide
  · have e2 : (step ⟨3/2, emptyString⟩ (.ok ()) (initState ⟨3/2, emptyString⟩ ⟨800, 600⟩)
        (.Resized ⟨267, 600⟩)).state.depth_view.size.width = f64_as_u32 ((267 : ℚ) * (3/2)) := rfl
    rw [e2, show ((267 : ℚ) * (3/2)) = 801/2 by norm_num, f64_as_u32_eq,
      show ⌊(801/2 : ℚ)⌋ = 400 by rw [Int.floor_eq_iff]; norm_num]
    decide

/-- Claim C9 as stated is false at a concrete input: after a resize whose
physical size is `0 × 0`, the swap chain is created with width `0` (nothing
is clamped to `1 × 1`) and the next idle tick still renders a frame (the
frame is not skipped). -/
theorem zero_size_counterexample :
    ¬ ((∀ c ∈ (step ⟨1, emptyString⟩ (.ok ()) (initState ⟨1, emptyString⟩ ⟨100, 100⟩)
            (.Resized ⟨0, 0⟩)).created,
          1 ≤ c.createdWidth ∧ 1 ≤ c.createdHeight) ∨
       (step ⟨1, emptyString⟩ (.ok ())
          (step ⟨1, emptyString⟩ (.ok ()) (initState ⟨1, emptyString⟩ ⟨100, 100⟩)
             (.Resized ⟨0, 0⟩)).state .EventsCleared).frames = 0) := by
  have r0 : u32_round ((0 : ℚ) * 1) = 0 := by
    rw [show ((0 : ℚ) * 1) = 0 by norm_num, u32_round_eq _ le_rfl,
      show ⌊(0 : ℚ) + 1/2⌋ = 0 by rw [Int.floor_eq_iff]; norm_num]
    decide
  intro h
  rcases h with h | h
  · have hcr : (step ⟨1, emptyString⟩ (.ok ()) (initState ⟨1, emptyString⟩ ⟨100, 100⟩)
        (.Resized ⟨0, 0⟩)).created =
        [Creation.swapchain (makeSwapChainDesc (LogicalSize.to_physical ⟨0, 0⟩ 1)),
         Creation.texture (create_depth_view (LogicalSize.to_physical ⟨0, 0⟩ 1))] := rfl
    rw [hcr] at h
    have hmem := h (Creation.swapchain (makeSwapChainDesc
        (LogicalSize.to_physical ⟨0, 0⟩ 1))) (List.mem_cons_self _ _)
    have hw : (Creation.swapchain (makeSwapChainDesc
        (LogicalSize.to_physical ⟨0, 0⟩ 1))).createdWidth = u32_round ((0 : ℚ) * 1) := rfl
    rw [hw, r0] at hmem
    exact absurd hmem.1 (by decide)
  · have h1 : (step ⟨1, emptyString⟩ (.ok ())
        (step ⟨1, emptyString⟩ (.ok ()) (initState ⟨1, emptyString⟩ ⟨100, 100⟩)
           (.Resized ⟨0, 0⟩)).state .EventsCleared).frames = 1 := rfl
    rw [h1] at h
    exact absurd h (by decide)

/-- Claim C9 amended: the program performs no zero-size handling at all —
the resize arm always passes the computed physical size straight through to
swap-chain and depth-texture creation (no clamping), and an idle tick always
renders a frame (no skipping); at a `0 × 0` physical size the zero-sized
descriptors go to the GPU layer as-is. -/
theorem zero_size_passthrough (cfg : Config) (draw : Except String Unit)
    (s : AppState) (l : LogicalSize) :
    (step cfg draw s (.Resized l)).created =
      [Creation.swapchain (makeSwapChainDesc (l.to_physical cfg.hidpi)),
       Creation.texture (create_depth_view (l.to_physical cfg.hidpi))] ∧
    (step cfg (.ok ()) s .EventsCleared).frames = 1 :=
  ⟨rfl, rfl⟩
